import Mathlib

/-!
Verification of the `partition-identity` crate (src/src/lib.rs).

Rust strings (`&str` / `String`) are modelled as `List Char`; all the textual
prefixes involved are ASCII, so byte slicing `input[n..]` after a successful
ASCII prefix test coincides with `List.drop n`.  `OsStr`/`OsString` values
(which may hold non-UTF-8 file names) are modelled by the inductive `OsStr`
below.  Filesystem paths are kept abstract (a type parameter `P`), and the
filesystem operations the code relies on (`Path::canonicalize`,
`Path::file_name`, `Path::read_dir`) are supplied as explicit functions, so
the directory-scanning loops become pure recursive functions over entry
lists.
-/

/-- Rust string slices, as character sequences. -/
abbrev RStr := List Char

/-- `Rust str::starts_with` on our string model. -/
def starts_with (s pre : RStr) : Bool := pre.isPrefixOf s

/-- An apostrophe character (used by the parse-error message). -/
def squote : Char := Char.ofNat 39

/-- A double-quote character (used by the panic message of `PartitionID::dir`,
whose `{:?}` formatting of a `PathBuf` quotes it). -/
def dquote : Char := Char.ofNat 34

/-- `enum PartitionSource` from src/src/lib.rs. -/
inductive PartitionSource where
  | ID
  | Label
  | PartLabel
  | PartUUID
  | Path
  | UUID
deriving DecidableEq

/-- `struct PartitionID { variant, id }` from src/src/lib.rs. -/
structure PartitionID where
  variant : PartitionSource
  id : RStr
deriving DecidableEq

/-- `impl From<PartitionSource> for &'static str` from src/src/lib.rs. -/
def PartitionSource.to_str : PartitionSource → RStr
  | .ID => "id".data
  | .Label => "label".data
  | .PartLabel => "partlabel".data
  | .PartUUID => "partuuid".data
  | .Path => "path".data
  | .UUID => "uuid".data

/-- `PartitionSource::disk_by_path` from src/src/lib.rs. -/
def PartitionSource.disk_by_path (self : PartitionSource) : RStr :=
  "/dev/disk/by-".data ++ self.to_str

/-- The error message built by `<PartitionID as FromStr>::from_str`:
`format!("'{}' is not a valid PartitionID string", input)`. -/
def invalid_msg (input : RStr) : RStr :=
  squote :: input ++ squote :: " is not a valid PartitionID string".data

/-- `<PartitionID as FromStr>::from_str` from src/src/lib.rs. -/
def PartitionID.from_str (input : RStr) : Except RStr PartitionID :=
  if starts_with input "/".data then
    .ok ⟨.Path, input⟩
  else if starts_with input "ID=".data then
    .ok ⟨.ID, input.drop 3⟩
  else if starts_with input "LABEL=".data then
    .ok ⟨.Label, input.drop 6⟩
  else if starts_with input "PARTLABEL=".data then
    .ok ⟨.PartLabel, input.drop 10⟩
  else if starts_with input "PARTUUID=".data then
    .ok ⟨.PartUUID, input.drop 9⟩
  else if starts_with input "UUID=".data then
    .ok ⟨.UUID, input.drop 5⟩
  else
    .error (invalid_msg input)

/-- Spec section 4.1 / 6: the uppercased kind token used by the text form. -/
def token_upper (v : PartitionSource) : RStr := v.to_str.map Char.toUpper

/-- Modelled from the spec: the crate has no serializer under src/ (the text
form is only consumed there, by `from_str`); the spec says serialization maps
a `Path` identity to its raw path string with no prefix, and every other
identity to its kind token uppercased, joined with `=` to the stored value. -/
def serialize (pid : PartitionID) : RStr :=
  match pid.variant with
  | .Path => pid.id
  | v => token_upper v ++ "=".data ++ pid.id

/-- A Rust `OsStr`/`OsString` (a platform file name): either valid UTF-8 text
or a byte sequence that is not valid UTF-8. -/
inductive OsStr where
  | utf8 (s : RStr)
  | nonUtf8 (bytes : List Nat)
deriving DecidableEq

/-- `OsStr::to_str`: the text of a valid-UTF-8 name, `None` otherwise. -/
def OsStr.to_str : OsStr → Option RStr
  | .utf8 s => some s
  | .nonUtf8 _ => none

/-- The `PartialEq<str>` comparison `name == uuid` used by `from_uuid`: a
non-UTF-8 name never equals a string. -/
def OsStr.eq_str : OsStr → RStr → Bool
  | .utf8 s, u => s == u
  | .nonUtf8 _, _ => false

/-- The path operations of `std` that src/src/lib.rs relies on, over an
abstract path type `P`: `Path::canonicalize` (fallible) and
`Path::file_name` (`None` for paths such as `/` or ones ending in `..`). -/
structure Fs (P : Type) where
  canonicalize : P → Option P
  file_name : P → Option OsStr

/-- A directory entry as `lib.rs` consumes it: `DirEntry::file_name()` (the
raw entry name) and `DirEntry::path()`. -/
structure DirEntry (P : Type) where
  entry_name : OsStr
  path : P

/-- The `for` loop of `fn from_uuid` in src/src/lib.rs, over the entries that
survived `filter_map(|entry| entry.ok())`. -/
def from_uuid_loop {P : Type} (fs : Fs P) (uuid : RStr) :
    List (DirEntry P) → Option P
  | [] => none
  | e :: rest =>
    match fs.file_name e.path with
    | some name =>
      if name.eq_str uuid then
        match fs.canonicalize e.path with
        | some c => some c
        | none => from_uuid_loop fs uuid rest
      else from_uuid_loop fs uuid rest
    | none => from_uuid_loop fs uuid rest

/-- `fn from_uuid(uuid, uuid_dir)` from src/src/lib.rs: the read-dir stream
(whose items are io results) is filtered to its ok entries and scanned. -/
def from_uuid {P : Type} (fs : Fs P) (uuid : RStr)
    (uuid_dir : List (Except RStr (DirEntry P))) : Option P :=
  from_uuid_loop fs uuid (uuid_dir.filterMap Except.toOption)

/-- The `for` loop of `fn find_uuid` in src/src/lib.rs, comparing each ok
entry's canonicalized path against the already-canonicalized target. -/
def find_uuid_loop {P : Type} [DecidableEq P] (fs : Fs P) (target : P) :
    List (DirEntry P) → Option RStr
  | [] => none
  | e :: rest =>
    match fs.canonicalize e.path with
    | some uuid_path =>
      if uuid_path = target then
        match e.entry_name.to_str with
        | some name => some name
        | none => find_uuid_loop fs target rest
      else find_uuid_loop fs target rest
    | none => find_uuid_loop fs target rest

/-- `fn find_uuid(path, uuid_dir)` from src/src/lib.rs: canonicalize the
target first (`None` on failure), then scan the ok entries. -/
def find_uuid {P : Type} [DecidableEq P] (fs : Fs P) (path : P)
    (uuid_dir : List (Except RStr (DirEntry P))) : Option RStr :=
  match fs.canonicalize path with
  | some cpath => find_uuid_loop fs cpath (uuid_dir.filterMap Except.toOption)
  | none => none

/-- Follows the spec's words (section 4.2, forward_resolve): the result is the
canonicalized path of the first entry whose file name equals the identifier
value and whose path canonicalizes successfully; entries failing either test
contribute nothing. -/
def forward_resolve {P : Type} (fs : Fs P) (value : RStr)
    (entries : List (DirEntry P)) : Option P :=
  (entries.filterMap (fun e =>
    match fs.file_name e.path with
    | some name => if name.eq_str value then fs.canonicalize e.path else none
    | none => none)).head?

/-- Follows the spec's words (section 4.2, reverse_resolve): canonicalize the
target up front (absent on failure), then the result is the file name (as
text) of the first entry whose canonicalized path equals the target. -/
def reverse_resolve {P : Type} [DecidableEq P] (fs : Fs P) (device_path : P)
    (entries : List (DirEntry P)) : Option RStr :=
  match fs.canonicalize device_path with
  | none => none
  | some target =>
    (entries.filterMap (fun e =>
      match fs.canonicalize e.path with
      | some c => if c = target then e.entry_name.to_str else none
      | none => none)).head?

/-- A concrete path-free filesystem for witnesses: every path has file name
`u1` and no path canonicalizes. -/
def fs_skip : Fs Nat := ⟨fun _ => none, fun _ => some (.utf8 "u1".data)⟩

/-- A concrete filesystem for witnesses where nothing canonicalizes and no
path has a file name. -/
def fs_none : Fs Nat := ⟨fun _ => none, fun _ => none⟩

/-- A concrete filesystem for witnesses where every path canonicalizes to
`0` and no path has a file name. -/
def fs_all_zero : Fs Nat := ⟨fun _ => some 0, fun _ => none⟩

/-- The ambient filesystem as the façade sees it: the path operations plus
`Path::read_dir` keyed by directory path string, returning either an io
error or the directory's item stream (whose items are io results). -/
structure Env (P : Type) where
  fs : Fs P
  read_dir : RStr → Except RStr (List (Except RStr (DirEntry P)))

/-- The panic message of `PartitionID::dir`:
`format!("unable to find {:?}: {}", idpath, why)`; the `{:?}` formatting of a
`PathBuf` wraps it in double quotes. -/
def panic_msg (idpath why : RStr) : RStr :=
  "unable to find ".data ++ dquote :: idpath ++ dquote :: ": ".data ++ why

/-- `PartitionID::dir` from src/src/lib.rs; the `panic!` on a failed
`read_dir` is modelled as the `Except.error` outcome carrying the panic
message (in Rust the process terminates there). -/
def PartitionID.dir {P : Type} (env : Env P) (variant : PartitionSource) :
    Except RStr (List (Except RStr (DirEntry P))) :=
  match env.read_dir variant.disk_by_path with
  | .ok entries => .ok entries
  | .error why => .error (panic_msg variant.disk_by_path why)

/-- `PartitionID::get_device_path` from src/src/lib.rs (the `.error` outcome
is the modelled panic of `PartitionID::dir`). -/
def PartitionID.get_device_path {P : Type} (env : Env P) (self : PartitionID) :
    Except RStr (Option P) :=
  match PartitionID.dir env self.variant with
  | .ok entries => .ok (from_uuid env.fs self.id entries)
  | .error msg => .error msg

/-- `PartitionID::get_source` from src/src/lib.rs. -/
def PartitionID.get_source {P : Type} [DecidableEq P] (env : Env P)
    (variant : PartitionSource) (path : P) : Except RStr (Option PartitionID) :=
  match PartitionID.dir env variant with
  | .ok entries =>
      .ok ((find_uuid env.fs path entries).map (fun id => ⟨variant, id⟩))
  | .error msg => .error msg

/-- `PartitionID::get_uuid` from src/src/lib.rs. -/
def PartitionID.get_uuid {P : Type} [DecidableEq P] (env : Env P) (path : P) :
    Except RStr (Option PartitionID) :=
  PartitionID.get_source env .UUID path

/-- `PartitionID::get_partuuid` from src/src/lib.rs. -/
def PartitionID.get_partuuid {P : Type} [DecidableEq P] (env : Env P) (path : P) :
    Except RStr (Option PartitionID) :=
  PartitionID.get_source env .PartUUID path

/-- A concrete environment for witnesses in which every directory fails to
open with the io error `io`. -/
def env_all_fail : Env Nat := ⟨fs_none, fun _ => .error "io".data⟩

/-- A concrete environment for witnesses in which every directory opens and
is empty except `/dev/disk/by-path`, which fails to open with io error
`missing`. -/
def env_by_path_missing : Env Nat :=
  ⟨fs_none, fun d =>
    if d = "/dev/disk/by-path".data then .error "missing".data else .ok []⟩

example : PartitionID.from_str "/dev/sda1".data = .ok ⟨.Path, "/dev/sda1".data⟩ := by rfl
example : PartitionID.from_str "ID=abcd".data = .ok ⟨.ID, "abcd".data⟩ := by rfl
example : PartitionID.from_str "LABEL=abcd".data = .ok ⟨.Label, "abcd".data⟩ := by rfl
example : PartitionID.from_str "PARTLABEL=abcd".data = .ok ⟨.PartLabel, "abcd".data⟩ := by rfl
example : PartitionID.from_str "PARTUUID=abcd".data = .ok ⟨.PartUUID, "abcd".data⟩ := by rfl
example : PartitionID.from_str "UUID=abcd".data = .ok ⟨.UUID, "abcd".data⟩ := by rfl
example : PartitionID.from_str "foo".data = .error (invalid_msg "foo".data) := by rfl
example : PartitionID.from_str [] = .error (invalid_msg []) := by rfl

theorem isPrefixOf_cons_cons (a b : Char) (l m : RStr) :
    (a :: l).isPrefixOf (b :: m) = ((a == b) && l.isPrefixOf m) := rfl

theorem isPrefixOf_append_self (l s : RStr) : l.isPrefixOf (l ++ s) = true := by
  induction l with
  | nil => simp
  | cons a t ih => simp [List.isPrefixOf, ih]

theorem from_str_id_eq (s : RStr) :
    PartitionID.from_str ("ID=".data ++ s) = .ok ⟨.ID, s⟩ := by
  have h1 : starts_with ("ID=".data ++ s) "/".data = false := by rfl
  have h2 : starts_with ("ID=".data ++ s) "ID=".data = true :=
    isPrefixOf_append_self _ _
  unfold PartitionID.from_str
  simp only [h1, h2]
  simp

theorem from_str_label_eq (s : RStr) :
    PartitionID.from_str ("LABEL=".data ++ s) = .ok ⟨.Label, s⟩ := by
  have h1 : starts_with ("LABEL=".data ++ s) "/".data = false := by rfl
  have h2 : starts_with ("LABEL=".data ++ s) "ID=".data = false := by rfl
  have h3 : starts_with ("LABEL=".data ++ s) "LABEL=".data = true :=
    isPrefixOf_append_self _ _
  unfold PartitionID.from_str
  simp only [h1, h2, h3]
  simp

theorem from_str_partlabel_eq (s : RStr) :
    PartitionID.from_str ("PARTLABEL=".data ++ s) = .ok ⟨.PartLabel, s⟩ := by
  have h1 : starts_with ("PARTLABEL=".data ++ s) "/".data = false := by rfl
  have h2 : starts_with ("PARTLABEL=".data ++ s) "ID=".data = false := by rfl
  have h3 : starts_with ("PARTLABEL=".data ++ s) "LABEL=".data = false := by rfl
  have h4 : starts_with ("PARTLABEL=".data ++ s) "PARTLABEL=".data = true :=
    isPrefixOf_append_self _ _
  unfold PartitionID.from_str
  simp only [h1, h2, h3, h4]
  simp

theorem from_str_partuuid_eq (s : RStr) :
    PartitionID.from_str ("PARTUUID=".data ++ s) = .ok ⟨.PartUUID, s⟩ := by
  have h1 : starts_with ("PARTUUID=".data ++ s) "/".data = false := by rfl
  have h2 : starts_with ("PARTUUID=".data ++ s) "ID=".data = false := by rfl
  have h3 : starts_with ("PARTUUID=".data ++ s) "LABEL=".data = false := by rfl
  have h4 : starts_with ("PARTUUID=".data ++ s) "PARTLABEL=".data = false := by rfl
  have h5 : starts_with ("PARTUUID=".data ++ s) "PARTUUID=".data = true :=
    isPrefixOf_append_self _ _
  unfold PartitionID.from_str
  simp only [h1, h2, h3, h4, h5]
  simp

theorem from_str_uuid_eq (s : RStr) :
    PartitionID.from_str ("UUID=".data ++ s) = .ok ⟨.UUID, s⟩ := by
  have h1 : starts_with ("UUID=".data ++ s) "/".data = false := by rfl
  have h2 : starts_with ("UUID=".data ++ s) "ID=".data = false := by rfl
  have h3 : starts_with ("UUID=".data ++ s) "LABEL=".data = false := by rfl
  have h4 : starts_with ("UUID=".data ++ s) "PARTLABEL=".data = false := by rfl
  have h5 : starts_with ("UUID=".data ++ s) "PARTUUID=".data = false := by rfl
  have h6 : starts_with ("UUID=".data ++ s) "UUID=".data = true :=
    isPrefixOf_append_self _ _
  unfold PartitionID.from_str
  simp only [h1, h2, h3, h4, h5, h6]
  simp

theorem from_str_slash_eq (input : RStr) (h : starts_with input "/".data = true) :
    PartitionID.from_str input = .ok ⟨.Path, input⟩ := by
  simp [PartitionID.from_str, h]

theorem from_str_invalid_eq (input : RStr)
    (h1 : starts_with input "/".data = false)
    (h2 : starts_with input "ID=".data = false)
    (h3 : starts_with input "LABEL=".data = false)
    (h4 : starts_with input "PARTLABEL=".data = false)
    (h5 : starts_with input "PARTUUID=".data = false)
    (h6 : starts_with input "UUID=".data = false) :
    PartitionID.from_str input = .error (invalid_msg input) := by
  simp [PartitionID.from_str, h1, h2, h3, h4, h5, h6]

/-- C1: parsing follows a three-way rule: an input beginning with `/` parses
as a `Path` identity holding the whole input; an input beginning with one of
the five prefixes `ID=`, `LABEL=`, `PARTLABEL=`, `PARTUUID=`, `UUID=` parses
as the matching kind with the prefix stripped; any other input fails with the
parse error carrying the offending input, in particular `foo` and the empty
string fail. -/
theorem from_str_three_way_rule :
    (∀ input : RStr, starts_with input "/".data = true →
      PartitionID.from_str input = .ok ⟨.Path, input⟩)
  ∧ (∀ s : RStr, PartitionID.from_str ("ID=".data ++ s) = .ok ⟨.ID, s⟩)
  ∧ (∀ s : RStr, PartitionID.from_str ("LABEL=".data ++ s) = .ok ⟨.Label, s⟩)
  ∧ (∀ s : RStr, PartitionID.from_str ("PARTLABEL=".data ++ s) = .ok ⟨.PartLabel, s⟩)
  ∧ (∀ s : RStr, PartitionID.from_str ("PARTUUID=".data ++ s) = .ok ⟨.PartUUID, s⟩)
  ∧ (∀ s : RStr, PartitionID.from_str ("UUID=".data ++ s) = .ok ⟨.UUID, s⟩)
  ∧ (∀ input : RStr,
      starts_with input "/".data = false →
      starts_with input "ID=".data = false →
      starts_with input "LABEL=".data = false →
      starts_with input "PARTLABEL=".data = false →
      starts_with input "PARTUUID=".data = false →
      starts_with input "UUID=".data = false →
      PartitionID.from_str input = .error (invalid_msg input))
  ∧ PartitionID.from_str "foo".data = .error (invalid_msg "foo".data)
  ∧ PartitionID.from_str [] = .error (invalid_msg []) :=
  ⟨from_str_slash_eq, from_str_id_eq, from_str_label_eq, from_str_partlabel_eq,
   from_str_partuuid_eq, from_str_uuid_eq, from_str_invalid_eq, by rfl, by rfl⟩

/-- Witness for C1: the `Path` case at `/dev/sda1` and the failure case at
`foo`, with every hypothesis discharged by evaluation. -/
theorem from_str_three_way_rule_witness :
    PartitionID.from_str "/dev/sda1".data = .ok ⟨.Path, "/dev/sda1".data⟩
  ∧ PartitionID.from_str "foo".data = .error (invalid_msg "foo".data) :=
  ⟨from_str_three_way_rule.1 "/dev/sda1".data (by decide),
   from_str_three_way_rule.2.2.2.2.2.2.1 "foo".data (by decide) (by decide)
     (by decide) (by decide) (by decide) (by decide)⟩

/-- C6: `PARTLABEL=x` parses to kind `PartLabel` (never `Label`) and
`PARTUUID=x` parses to kind `PartUUID` (never `UUID`): the shorter prefixes
do not capture inputs beginning with the longer `PART`-prefixed forms. -/
theorem partlabel_partuuid_discrimination (x : RStr) :
    PartitionID.from_str ("PARTLABEL=".data ++ x) = .ok ⟨.PartLabel, x⟩
  ∧ PartitionID.from_str ("PARTUUID=".data ++ x) = .ok ⟨.PartUUID, x⟩
  ∧ PartitionSource.PartLabel ≠ PartitionSource.Label
  ∧ PartitionSource.PartUUID ≠ PartitionSource.UUID :=
  ⟨from_str_partlabel_eq x, from_str_partuuid_eq x, by decide, by decide⟩

/-- C10: parsing performs no validation of the value after a recognized
prefix: every suffix `s`, the empty one included, is accepted verbatim, so
`UUID=` parses with an empty value and `LABEL=a=b` parses to kind `Label`
with value `a=b`. -/
theorem from_str_accepts_any_value :
    (∀ s : RStr, PartitionID.from_str ("ID=".data ++ s) = .ok ⟨.ID, s⟩)
  ∧ (∀ s : RStr, PartitionID.from_str ("LABEL=".data ++ s) = .ok ⟨.Label, s⟩)
  ∧ (∀ s : RStr, PartitionID.from_str ("PARTLABEL=".data ++ s) = .ok ⟨.PartLabel, s⟩)
  ∧ (∀ s : RStr, PartitionID.from_str ("PARTUUID=".data ++ s) = .ok ⟨.PartUUID, s⟩)
  ∧ (∀ s : RStr, PartitionID.from_str ("UUID=".data ++ s) = .ok ⟨.UUID, s⟩)
  ∧ PartitionID.from_str "UUID=".data = .ok ⟨.UUID, []⟩
  ∧ PartitionID.from_str "LABEL=a=b".data = .ok ⟨.Label, "a=b".data⟩ :=
  ⟨from_str_id_eq, from_str_label_eq, from_str_partlabel_eq,
   from_str_partuuid_eq, from_str_uuid_eq, by rfl, by rfl⟩

/-- C8: the kind-to-token-to-directory mapping is the fixed closed table
`ID ↦ id`, `Label ↦ label`, `PartLabel ↦ partlabel`, `PartUUID ↦ partuuid`,
`Path ↦ path`, `UUID ↦ uuid`, and the backing directory of a kind is
`/dev/disk/by-` concatenated with its token. -/
theorem kind_token_directory_table :
    PartitionSource.to_str .ID = "id".data
  ∧ PartitionSource.to_str .Label = "label".data
  ∧ PartitionSource.to_str .PartLabel = "partlabel".data
  ∧ PartitionSource.to_str .PartUUID = "partuuid".data
  ∧ PartitionSource.to_str .Path = "path".data
  ∧ PartitionSource.to_str .UUID = "uuid".data
  ∧ ∀ v : PartitionSource, v.disk_by_path = "/dev/disk/by-".data ++ v.to_str :=
  ⟨rfl, rfl, rfl, rfl, rfl, rfl, fun _ => rfl⟩

/-- C5: serialization (modelled from the spec) inverts parsing: for every
kind other than `Path` and every non-empty value without `=`, parsing the
uppercased token joined by `=` to the value and re-serializing returns the
input; for `Path`, parsing an absolute path string and re-serializing
returns the path itself. -/
theorem round_trip_parse_serialize :
    (∀ (k : PartitionSource) (v : RStr), k ≠ .Path → v ≠ [] → '=' ∉ v →
      (PartitionID.from_str (token_upper k ++ "=".data ++ v)).map serialize
        = .ok (token_upper k ++ "=".data ++ v))
  ∧ (∀ p : RStr, starts_with p "/".data = true →
      (PartitionID.from_str p).map serialize = .ok p) := by
  constructor
  · intro k v hk _ _
    cases k with
    | Path => exact absurd rfl hk
    | ID =>
        rw [show token_upper .ID ++ "=".data ++ v = "ID=".data ++ v from rfl,
          from_str_id_eq]
        rfl
    | Label =>
        rw [show token_upper .Label ++ "=".data ++ v = "LABEL=".data ++ v from rfl,
          from_str_label_eq]
        rfl
    | PartLabel =>
        rw [show token_upper .PartLabel ++ "=".data ++ v = "PARTLABEL=".data ++ v from rfl,
          from_str_partlabel_eq]
        rfl
    | PartUUID =>
        rw [show token_upper .PartUUID ++ "=".data ++ v = "PARTUUID=".data ++ v from rfl,
          from_str_partuuid_eq]
        rfl
    | UUID =>
        rw [show token_upper .UUID ++ "=".data ++ v = "UUID=".data ++ v from rfl,
          from_str_uuid_eq]
        rfl
  · intro p hp
    rw [from_str_slash_eq p hp]
    rfl

/-- Witness for C5: the round trip at `LABEL=abcd` and at `/dev/sda1`. -/
theorem round_trip_parse_serialize_witness :
    (PartitionID.from_str (token_upper .Label ++ "=".data ++ "abcd".data)).map serialize
      = .ok (token_upper .Label ++ "=".data ++ "abcd".data)
  ∧ (PartitionID.from_str "/dev/sda1".data).map serialize = .ok "/dev/sda1".data :=
  ⟨round_trip_parse_serialize.1 .Label "abcd".data (by decide) (by decide) (by decide),
   round_trip_parse_serialize.2 "/dev/sda1".data (by decide)⟩

theorem from_uuid_loop_eq_forward {P : Type} (fs : Fs P) (uuid : RStr)
    (entries : List (DirEntry P)) :
    from_uuid_loop fs uuid entries = forward_resolve fs uuid entries := by
  induction entries with
  | nil => rfl
  | cons e rest ih =>
    simp only [from_uuid_loop, forward_resolve, List.filterMap_cons] at ih ⊢
    cases h1 : fs.file_name e.path with
    | none => simpa [h1] using ih
    | some name =>
      cases h2 : name.eq_str uuid with
      | false => simpa [h1, h2] using ih
      | true =>
        cases h3 : fs.canonicalize e.path with
        | none => simpa [h1, h2, h3] using ih
        | some c => simp [h1, h2, h3]

theorem find_uuid_loop_eq_reverse {P : Type} [DecidableEq P] (fs : Fs P)
    (target : P) (entries : List (DirEntry P)) :
    find_uuid_loop fs target entries
      = (entries.filterMap (fun e =>
          match fs.canonicalize e.path with
          | some c => if c = target then e.entry_name.to_str else none
          | none => none)).head? := by
  induction entries with
  | nil => rfl
  | cons e rest ih =>
    simp only [find_uuid_loop, List.filterMap_cons] at ih ⊢
    cases h1 : fs.canonicalize e.path with
    | none => simpa [h1] using ih
    | some c =>
      by_cases h2 : c = target
      · cases h3 : e.entry_name.to_str with
        | none => simpa [h1, h2, h3] using ih
        | some name => simp [h1, h2, h3]
      · simpa [h1, h2] using ih

/-- C2: forward resolution returns the canonicalized path of the first ok
entry, in iteration order, whose file name equals the identifier value and
whose path canonicalizes successfully (`head?` of the qualifying entries);
an entry whose name matches but whose canonicalization fails is silently
skipped, so a later valid entry is still found; when no entry qualifies the
result is `none`, never an error. -/
theorem from_uuid_first_qualifying {P : Type} (fs : Fs P) (uuid : RStr) :
    (∀ uuid_dir : List (Except RStr (DirEntry P)),
      from_uuid fs uuid uuid_dir
        = forward_resolve fs uuid (uuid_dir.filterMap Except.toOption))
  ∧ (∀ (e : DirEntry P) (name : OsStr) (rest : List (Except RStr (DirEntry P))),
      fs.file_name e.path = some name →
      name.eq_str uuid = true →
      fs.canonicalize e.path = none →
      from_uuid fs uuid (.ok e :: rest) = from_uuid fs uuid rest) := by
  constructor
  · intro uuid_dir
    exact from_uuid_loop_eq_forward fs uuid _
  · intro e name rest h1 h2 h3
    simp [from_uuid, List.filterMap_cons, from_uuid_loop, h1, h2, h3]

/-- Witness for C2: under `fs_skip`, the matching-name entry whose
canonicalization fails is skipped. -/
theorem from_uuid_first_qualifying_witness :
    from_uuid fs_skip "u1".data [.ok ⟨.utf8 "u1".data, 5⟩]
      = from_uuid fs_skip "u1".data [] :=
  (from_uuid_first_qualifying fs_skip "u1".data).2 ⟨.utf8 "u1".data, 5⟩
    (.utf8 "u1".data) [] rfl (by decide) rfl

/-- C3: reverse resolution canonicalizes the target first and returns `none`
immediately (for every entry list) when that fails; otherwise it returns the
file name (as text) of the first ok entry whose canonicalized path equals the
canonicalized target, skipping entries whose canonicalization fails; when no
entry matches the result is `none`, never an error. -/
theorem find_uuid_first_match {P : Type} [DecidableEq P] (fs : Fs P) (path : P) :
    (fs.canonicalize path = none →
      ∀ uuid_dir : List (Except RStr (DirEntry P)), find_uuid fs path uuid_dir = none)
  ∧ (∀ uuid_dir : List (Except RStr (DirEntry P)),
      find_uuid fs path uuid_dir
        = reverse_resolve fs path (uuid_dir.filterMap Except.toOption)) := by
  constructor
  · intro h uuid_dir
    simp [find_uuid, h]
  · intro uuid_dir
    unfold find_uuid reverse_resolve
    cases h : fs.canonicalize path with
    | none => rfl
    | some target => exact find_uuid_loop_eq_reverse fs target _

/-- Witness for C3: under `fs_none` the target does not canonicalize, so the
scan of a non-empty directory returns `none` without consulting it. -/
theorem find_uuid_first_match_witness :
    find_uuid fs_none 0 [.ok ⟨.utf8 "u1".data, 5⟩] = none :=
  (find_uuid_first_match fs_none 0).1 rfl [.ok ⟨.utf8 "u1".data, 5⟩]

/-- C9: in reverse resolution, an ok entry whose canonicalized path equals
the canonicalized target but whose file name is not valid UTF-8 is passed
over without ending the scan: the result over `entry :: rest` equals the
result over `rest` alone, so a later matching entry with a UTF-8 name can
still be returned and a structural path match alone never suffices. -/
theorem find_uuid_skips_non_utf8_names {P : Type} [DecidableEq P] (fs : Fs P)
    (path : P) (e : DirEntry P) (rest : List (Except RStr (DirEntry P)))
    (target : P)
    (h1 : fs.canonicalize path = some target)
    (h2 : fs.canonicalize e.path = some target)
    (h3 : e.entry_name.to_str = none) :
    find_uuid fs path (.ok e :: rest) = find_uuid fs path rest := by
  simp [find_uuid, h1, List.filterMap_cons, find_uuid_loop, h2, h3]

/-- Witness for C9: a matching entry named by the invalid byte `0xFF` is
skipped, and the later matching entry named `u2` is still found. -/
theorem find_uuid_skips_non_utf8_names_witness :
    find_uuid fs_all_zero 7 [.ok ⟨.nonUtf8 [255], 5⟩, .ok ⟨.utf8 "u2".data, 6⟩]
      = find_uuid fs_all_zero 7 [.ok ⟨.utf8 "u2".data, 6⟩]
  ∧ find_uuid fs_all_zero 7 [.ok ⟨.utf8 "u2".data, 6⟩] = some "u2".data :=
  ⟨find_uuid_skips_non_utf8_names fs_all_zero 7 ⟨.nonUtf8 [255], 5⟩
      [.ok ⟨.utf8 "u2".data, 6⟩] 0 rfl rfl rfl,
   by rfl⟩

/-- C7: when the backing directory for a kind cannot be opened,
`get_device_path` and `get_source` return neither a value nor a recoverable
error: the modelled behavior is the panic (process termination), the
`.error` outcome carrying the panic message; when the directory opens, both
operations return an `.ok` (possibly absent) value, so directory-open
failure is the only scanning-related condition not absorbed into an absent
result. -/
theorem dir_open_failure_panics {P : Type} [DecidableEq P] (env : Env P)
    (v : PartitionSource) (id : RStr) (p : P) :
    (∀ why, env.read_dir v.disk_by_path = .error why →
        PartitionID.get_device_path env ⟨v, id⟩
          = .error (panic_msg v.disk_by_path why)
      ∧ PartitionID.get_source env v p = .error (panic_msg v.disk_by_path why))
  ∧ (∀ entries, env.read_dir v.disk_by_path = .ok entries →
        PartitionID.get_device_path env ⟨v, id⟩ = .ok (from_uuid env.fs id entries)
      ∧ PartitionID.get_source env v p
          = .ok ((find_uuid env.fs p entries).map (fun i => ⟨v, i⟩))) := by
  constructor
  · intro why h
    constructor
    · simp [PartitionID.get_device_path, PartitionID.dir, h]
    · simp [PartitionID.get_source, PartitionID.dir, h]
  · intro entries h
    constructor
    · simp [PartitionID.get_device_path, PartitionID.dir, h]
    · simp [PartitionID.get_source, PartitionID.dir, h]

/-- Witness for C7: under `env_all_fail`, both operations on the `UUID` kind
hit the modelled panic for `/dev/disk/by-uuid`. -/
theorem dir_open_failure_panics_witness :
    PartitionID.get_device_path env_all_fail ⟨.UUID, "u1".data⟩
      = .error (panic_msg (PartitionSource.disk_by_path .UUID) "io".data)
  ∧ PartitionID.get_source env_all_fail .UUID 0
      = .error (panic_msg (PartitionSource.disk_by_path .UUID) "io".data) :=
  (dir_open_failure_panics env_all_fail .UUID "u1".data 0).1 "io".data rfl

/-- Counterexample to C4 as stated: resolving the device path of a
`Path`-kind identity does open a `/dev/disk/by-*` directory.  In an
environment where every directory opens except `/dev/disk/by-path`,
`get_device_path` on a `Path`-kind identity hits the panic for
`/dev/disk/by-path`, which it could not do without opening it. -/
theorem path_kind_counterexample :
    PartitionSource.disk_by_path .Path = "/dev/disk/by-path".data
  ∧ PartitionID.get_device_path env_by_path_missing ⟨.Path, "/dev/sda1".data⟩
      = .error (panic_msg "/dev/disk/by-path".data "missing".data) :=
  ⟨rfl, by rfl⟩

/-- C4 amended: the `Path` kind is not excluded from directory-backed
operations: its backing directory is `/dev/disk/by-path`, and
`get_device_path` on a `Path`-kind identity opens and scans that directory
like any other kind — panicking if it fails to open, and otherwise looking
the stored id up among its entries. -/
theorem path_kind_uses_by_path_directory {P : Type} (env : Env P) (id : RStr) :
    PartitionSource.disk_by_path .Path = "/dev/disk/by-path".data
  ∧ (∀ why, env.read_dir "/dev/disk/by-path".data = .error why →
      PartitionID.get_device_path env ⟨.Path, id⟩
        = .error (panic_msg "/dev/disk/by-path".data why))
  ∧ (∀ entries, env.read_dir "/dev/disk/by-path".data = .ok entries →
      PartitionID.get_device_path env ⟨.Path, id⟩
        = .ok (from_uuid env.fs id entries)) := by
  refine ⟨rfl, ?_, ?_⟩
  · intro why h
    simp [PartitionID.get_device_path, PartitionID.dir,
      show PartitionSource.disk_by_path .Path = "/dev/disk/by-path".data from rfl, h]
  · intro entries h
    simp [PartitionID.get_device_path, PartitionID.dir,
      show PartitionSource.disk_by_path .Path = "/dev/disk/by-path".data from rfl, h]

/-- Witness for the amended C4: under `env_by_path_missing`, the `Path`-kind
resolution panics on `/dev/disk/by-path`. -/
theorem path_kind_uses_by_path_directory_witness :
    PartitionID.get_device_path env_by_path_missing ⟨.Path, "/dev/sda1".data⟩
      = .error (panic_msg "/dev/disk/by-path".data "missing".data) :=
  (path_kind_uses_by_path_directory env_by_path_missing "/dev/sda1".data).2.1
    "missing".data (by rfl)
